import Mathlib

/-!
Verification of the draft-workflow-variable controller
(`api/controllers/console/app/workflow_draft_variable.py`).

The controller is modelled as pure functions over an explicit store of
draft-variable rows.  HTTP plumbing (request parsing, decorators, session
management) is out of scope; the external service layer
(`WorkflowDraftVariableService`, `WorkflowService`) is modelled from the
spec where its code is not among the sources.  Marshalled responses are
modelled as association lists of field name to field value, mirroring the
`fields` dictionaries of the controller.
-/

/-- Value of a single marshalled response field. -/
inductive FieldValue where
  | str (s : String)
  | strList (l : List String)
  | bool (b : Bool)
deriving DecidableEq, Repr

/-- A stored draft-variable row (`models.workflow.WorkflowDraftVariable`). -/
structure WorkflowDraftVariable where
  id : String
  app_id : String
  node_id : String
  name : String
  description : String
  value_type : String
  value : String
  edited : Bool
  visible : Bool
deriving DecidableEq, Repr

/-- An environment variable declared on the workflow definition. -/
structure EnvironmentVariable where
  id : String
  name : String
  description : String
  selector : List String
  value_type : String
  value : String
deriving DecidableEq, Repr

/-- A conversation variable declared on the workflow definition, with its
declared default value. -/
structure ConversationVariableDecl where
  name : String
  default_value : String
deriving DecidableEq, Repr

/-- A draft workflow definition: the parts of `models.workflow.Workflow`
that this controller reads. -/
structure Workflow where
  environment_variables : List EnvironmentVariable
  conversation_variables : List ConversationVariableDecl
deriving DecidableEq, Repr

/-- Modelled from the spec: the reserved sentinel node id for
conversation-scoped variables.  `core.workflow.constants` is not among the
sources; the spec only fixes that there are two distinct reserved node
identifiers. -/
def CONVERSATION_VARIABLE_NODE_ID : String := "conversation"

/-- Modelled from the spec: the reserved sentinel node id for system-scoped
variables, distinct from the conversation sentinel. -/
def SYSTEM_VARIABLE_NODE_ID : String := "sys"

/-- Errors the controller can raise.  `notFoundError` and
`invalidArgumentError` carry the human-readable message built by the
controller; `forbidden` is raised by the permission prerequisite. -/
inductive ApiError where
  | notFoundError (description : String)
  | invalidArgumentError (message : String)
  | draftWorkflowNotExist
  | forbidden
deriving DecidableEq, Repr

/-- Modelled from the spec: the inferred type tag of a draft variable is
computed from its scope (system, conversation or ordinary node);
`WorkflowDraftVariable.get_variable_type` lives in `models/workflow.py`,
which is not among the sources. -/
def WorkflowDraftVariable.get_variable_type (v : WorkflowDraftVariable) : String :=
  if v.node_id == SYSTEM_VARIABLE_NODE_ID then "sys"
  else if v.node_id == CONVERSATION_VARIABLE_NODE_ID then "conversation"
  else "node"

/-- Modelled from the spec: the selector is derived deterministically from
(node_id, name); `WorkflowDraftVariable.get_selector` lives in
`models/workflow.py`, which is not among the sources. -/
def WorkflowDraftVariable.get_selector (v : WorkflowDraftVariable) : List String :=
  [v.node_id, v.name]

/-- The summary projection `_WORKFLOW_DRAFT_VARIABLE_WITHOUT_VALUE_FIELDS`:
the marshalled entry for one variable, without its value. -/
def marshalWithoutValue (v : WorkflowDraftVariable) : List (String × FieldValue) :=
  [("id", FieldValue.str v.id),
   ("type", FieldValue.str v.get_variable_type),
   ("name", FieldValue.str v.name),
   ("description", FieldValue.str v.description),
   ("selector", FieldValue.strList v.get_selector),
   ("value_type", FieldValue.str v.value_type),
   ("edited", FieldValue.bool v.edited),
   ("visible", FieldValue.bool v.visible)]

/-- The full projection `_WORKFLOW_DRAFT_VARIABLE_FIELDS`: the summary
fields plus the materialized value. -/
def marshalWithValue (v : WorkflowDraftVariable) : List (String × FieldValue) :=
  marshalWithoutValue v ++ [("value", FieldValue.str v.value)]

/-- The field names of the summary projection
`_WORKFLOW_DRAFT_VARIABLE_WITHOUT_VALUE_FIELDS`. -/
def WORKFLOW_DRAFT_VARIABLE_WITHOUT_VALUE_FIELDS : List String :=
  ["id", "type", "name", "description", "selector", "value_type", "edited", "visible"]

/-- The field names of the full projection `_WORKFLOW_DRAFT_VARIABLE_FIELDS`. -/
def WORKFLOW_DRAFT_VARIABLE_FIELDS : List String :=
  WORKFLOW_DRAFT_VARIABLE_WITHOUT_VALUE_FIELDS ++ ["value"]

/-- The entry synthesized for one environment variable by
`EnvironmentVariableCollectionApi.get` (the dict literal of the source). -/
def envVarEntry (v : EnvironmentVariable) : List (String × FieldValue) :=
  [("id", FieldValue.str v.id),
   ("type", FieldValue.str "env"),
   ("name", FieldValue.str v.name),
   ("description", FieldValue.str v.description),
   ("selector", FieldValue.strList v.selector),
   ("value_type", FieldValue.str v.value_type),
   ("value", FieldValue.str v.value),
   ("edited", FieldValue.bool false),
   ("visible", FieldValue.bool true),
   ("editable", FieldValue.bool true)]

/-- Look up a field of a marshalled entry by name. -/
def lookupField (entry : List (String × FieldValue)) (key : String) : Option FieldValue :=
  (entry.find? (fun p => p.1 == key)).map (fun p => p.2)

/-- Modelled from the spec: `get_variable` of the draft-variable service
fetches the row with the given id, or reports it absent.  The service
(`services/workflow_draft_variable_service.py`) is not among the sources. -/
def WorkflowDraftVariableService.get_variable (store : List WorkflowDraftVariable)
    (variable_id : String) : Option WorkflowDraftVariable :=
  store.find? (fun v => v.id == variable_id)

/-- Modelled from the spec: `update_variable` persists the optional new name
and new value and marks `edited = true`. -/
def WorkflowDraftVariableService.update_variable (v : WorkflowDraftVariable)
    (new_name : Option String) (new_value : Option String) : WorkflowDraftVariable :=
  { v with
      name := new_name.getD v.name,
      value := new_value.getD v.value,
      edited := true }

/-- Modelled from the spec: `list_node_variables` returns all variables of
the given app and node. -/
def WorkflowDraftVariableService.list_node_variables (store : List WorkflowDraftVariable)
    (app_id : String) (node_id : String) : List WorkflowDraftVariable :=
  store.filter (fun v => v.app_id == app_id && v.node_id == node_id)

/-- Modelled from the spec: `delete_node_variables` removes all variables of
the given app and node. -/
def WorkflowDraftVariableService.delete_node_variables (store : List WorkflowDraftVariable)
    (app_id : String) (node_id : String) : List WorkflowDraftVariable :=
  store.filter (fun v => !(v.app_id == app_id && v.node_id == node_id))

/-- Modelled from the spec: `delete_variable` removes one row. -/
def WorkflowDraftVariableService.delete_variable (store : List WorkflowDraftVariable)
    (v : WorkflowDraftVariable) : List WorkflowDraftVariable :=
  store.filter (fun w => w.id != v.id)

/-- The paginated result of `list_variables_without_values`.  The source
calls the first field `variables`; that is a reserved word here, so it is
named `rows`. -/
structure WorkflowDraftVariableList where
  rows : List WorkflowDraftVariable
  total : Nat
deriving DecidableEq, Repr

/-- Modelled from the spec: `list_variables_without_values` returns one page
of the app's variables in deterministic order together with the total count
of variables for that app. -/
def WorkflowDraftVariableService.list_variables_without_values
    (store : List WorkflowDraftVariable) (app_id : String)
    (page : Nat) (limit : Nat) : WorkflowDraftVariableList :=
  let appVars := store.filter (fun v => v.app_id == app_id)
  { rows := (appVars.drop ((page - 1) * limit)).take limit,
    total := appVars.length }

/-- Modelled from the spec: `reset_conversation_variable` restores the
variable to the workflow's declared default for its name, clearing `edited`;
when no stored override is needed the row is removed and the absent sentinel
(`none`) is returned. -/
def WorkflowDraftVariableService.reset_conversation_variable (workflow : Workflow)
    (v : WorkflowDraftVariable) : Option WorkflowDraftVariable :=
  match workflow.conversation_variables.find? (fun d => d.name == v.name) with
  | some d => some { v with value := d.default_value, edited := false }
  | none => none

/-- The workflow lookup boundary (`services/workflow_service.py`, not among
the sources): the mapping from app id to its draft workflow, when one
exists. -/
structure WorkflowService where
  draft_workflows : List (String × Workflow)
deriving DecidableEq, Repr

/-- Modelled from the spec: `get_draft_workflow` returns the app's draft
workflow or reports it absent. -/
def WorkflowService.get_draft_workflow (srv : WorkflowService) (app_id : String) :
    Option Workflow :=
  (srv.draft_workflows.find? (fun p => p.1 == app_id)).map (fun p => p.2)

/-- Modelled from the spec: `is_workflow_exist` tells whether a draft
workflow exists for the app. -/
def WorkflowService.is_workflow_exist (srv : WorkflowService) (app_id : String) : Bool :=
  (srv.get_draft_workflow app_id).isSome

/-- Outcome of the paginated listing endpoint: the response, and whether the
listing service was invoked. -/
structure ListOutcome where
  response : Except ApiError (List (List (String × FieldValue)) × Nat)
  service_invoked : Bool

/-- `WorkflowVariableCollectionApi.get`: paginated list of variable
summaries; `DraftWorkflowNotExist` when the app has no draft workflow. -/
def WorkflowVariableCollectionApi.get (srv : WorkflowService)
    (store : List WorkflowDraftVariable) (app_id : String)
    (page : Nat) (limit : Nat) : ListOutcome :=
  if !(srv.is_workflow_exist app_id) then
    { response := Except.error ApiError.draftWorkflowNotExist, service_invoked := false }
  else
    let workflow_vars :=
      WorkflowDraftVariableService.list_variables_without_values store app_id page limit
    { response := Except.ok (workflow_vars.rows.map marshalWithoutValue, workflow_vars.total),
      service_invoked := true }

/-- `validate_node_id`: rejects the two reserved sentinel node ids with an
`InvalidArgumentError` carrying the offending node id. -/
def validate_node_id (node_id : String) : Option ApiError :=
  if node_id == CONVERSATION_VARIABLE_NODE_ID || node_id == SYSTEM_VARIABLE_NODE_ID then
    some (ApiError.invalidArgumentError
      ("invalid node_id, please use correspond api for conversation and system variables, node_id="
        ++ node_id))
  else
    none

/-- Outcome of the node-scoped listing endpoint. -/
structure NodeGetOutcome where
  response : Except ApiError (List (List (String × FieldValue)))
  service_invoked : Bool

/-- `NodeVariableCollectionApi.get`: full list of one node's variables,
after `validate_node_id`. -/
def NodeVariableCollectionApi.get (store : List WorkflowDraftVariable)
    (app_id : String) (node_id : String) : NodeGetOutcome :=
  match validate_node_id node_id with
  | some e => { response := Except.error e, service_invoked := false }
  | none =>
    { response := Except.ok
        ((WorkflowDraftVariableService.list_node_variables store app_id node_id).map
          marshalWithValue),
      service_invoked := true }

/-- Outcome of the node-scoped delete endpoint: the response, the store
after the request, and whether the delete service was invoked and
committed. -/
structure NodeDeleteOutcome where
  response : Except ApiError Unit
  store : List WorkflowDraftVariable
  service_invoked : Bool
  committed : Bool

/-- `NodeVariableCollectionApi.delete`: bulk delete of one node's variables,
after `validate_node_id`; 204 on success. -/
def NodeVariableCollectionApi.delete (store : List WorkflowDraftVariable)
    (app_id : String) (node_id : String) : NodeDeleteOutcome :=
  match validate_node_id node_id with
  | some e => { response := Except.error e, store := store, service_invoked := false, committed := false }
  | none =>
    { response := Except.ok (),
      store := WorkflowDraftVariableService.delete_node_variables store app_id node_id,
      service_invoked := true,
      committed := true }

/-- The not-found message used by `VariableApi` for a missing id and for an
app mismatch alike. -/
def variableNotFoundMsg (variable_id : String) : String :=
  "variable not found, id=" ++ variable_id

/-- `VariableApi.get`: fetch one variable with its value; not-found when the
id is missing or belongs to another app. -/
def VariableApi.get (store : List WorkflowDraftVariable)
    (app_id : String) (variable_id : String) :
    Except ApiError (List (String × FieldValue)) :=
  match WorkflowDraftVariableService.get_variable store variable_id with
  | none => Except.error (ApiError.notFoundError (variableNotFoundMsg variable_id))
  | some var =>
    if var.app_id != app_id then
      Except.error (ApiError.notFoundError (variableNotFoundMsg variable_id))
    else
      Except.ok (marshalWithValue var)

/-- Outcome of the PATCH endpoint: the response, the store after the
request, and whether the update service was invoked and committed. -/
structure PatchOutcome where
  response : Except ApiError (List (String × FieldValue))
  store : List WorkflowDraftVariable
  update_invoked : Bool
  committed : Bool

/-- `VariableApi.patch`: partial update of name and value; when both are
absent the found variable is returned unchanged without invoking the update
service or committing. -/
def VariableApi.patch (store : List WorkflowDraftVariable)
    (app_id : String) (variable_id : String)
    (new_name : Option String) (new_value : Option String) : PatchOutcome :=
  match WorkflowDraftVariableService.get_variable store variable_id with
  | none =>
    { response := Except.error (ApiError.notFoundError (variableNotFoundMsg variable_id)),
      store := store, update_invoked := false, committed := false }
  | some var =>
    if var.app_id != app_id then
      { response := Except.error (ApiError.notFoundError (variableNotFoundMsg variable_id)),
        store := store, update_invoked := false, committed := false }
    else if new_name.isNone && new_value.isNone then
      { response := Except.ok (marshalWithValue var),
        store := store, update_invoked := false, committed := false }
    else
      let updated := WorkflowDraftVariableService.update_variable var new_name new_value
      { response := Except.ok (marshalWithValue updated),
        store := store.map (fun w => if w.id == updated.id then updated else w),
        update_invoked := true, committed := true }

/-- Outcome of the single-variable DELETE endpoint. -/
structure DeleteOutcome where
  response : Except ApiError Unit
  store : List WorkflowDraftVariable
  committed : Bool

/-- `VariableApi.delete`: delete one variable; not-found when the id is
missing or belongs to another app; 204 on success. -/
def VariableApi.delete (store : List WorkflowDraftVariable)
    (app_id : String) (variable_id : String) : DeleteOutcome :=
  match WorkflowDraftVariableService.get_variable store variable_id with
  | none =>
    { response := Except.error (ApiError.notFoundError (variableNotFoundMsg variable_id)),
      store := store, committed := false }
  | some var =>
    if var.app_id != app_id then
      { response := Except.error (ApiError.notFoundError (variableNotFoundMsg variable_id)),
        store := store, committed := false }
    else
      { response := Except.ok (),
        store := WorkflowDraftVariableService.delete_variable store var,
        committed := true }

/-- Success body of the reset endpoint: an empty 204 response, or the full
marshalled variable. -/
inductive ResetResponse where
  | noContent
  | fullVariable (entry : List (String × FieldValue))
deriving DecidableEq, Repr

/-- Outcome of the reset endpoint: the response, the store after the
request, whether the variable was looked up, and whether the reset service
was invoked and committed. -/
structure ResetOutcome where
  response : Except ApiError ResetResponse
  store : List WorkflowDraftVariable
  variable_lookup : Bool
  reset_invoked : Bool
  committed : Bool

/-- `VariableResetApi.put`: reset a conversation variable to its declared
default.  Requires a draft workflow, an existing variable of the caller's
app with the conversation sentinel node id; 204 when the reset service
reports the row absent, the full variable otherwise.  The service mutates
the fetched row in place, so the returned variable is the reset one. -/
def VariableResetApi.put (srv : WorkflowService) (store : List WorkflowDraftVariable)
    (app_id : String) (variable_id : String) : ResetOutcome :=
  match srv.get_draft_workflow app_id with
  | none =>
    { response := Except.error
        (ApiError.notFoundError ("Draft workflow not found, app_id=" ++ app_id)),
      store := store, variable_lookup := false, reset_invoked := false, committed := false }
  | some draft_workflow =>
    match WorkflowDraftVariableService.get_variable store variable_id with
    | none =>
      { response := Except.error (ApiError.notFoundError (variableNotFoundMsg variable_id)),
        store := store, variable_lookup := true, reset_invoked := false, committed := false }
    | some var =>
      if var.app_id != app_id then
        { response := Except.error (ApiError.notFoundError (variableNotFoundMsg variable_id)),
          store := store, variable_lookup := true, reset_invoked := false, committed := false }
      else if var.node_id != CONVERSATION_VARIABLE_NODE_ID then
        { response := Except.error (ApiError.invalidArgumentError
            ("variable is not a conversation variable, id=" ++ var.id
              ++ ", node_id=" ++ var.node_id ++ ",  name=" ++ var.name)),
          store := store, variable_lookup := true, reset_invoked := false, committed := false }
      else
        match WorkflowDraftVariableService.reset_conversation_variable draft_workflow var with
        | none =>
          { response := Except.ok ResetResponse.noContent,
            store := store.filter (fun w => w.id != var.id),
            variable_lookup := true, reset_invoked := true, committed := true }
        | some updated =>
          { response := Except.ok (ResetResponse.fullVariable (marshalWithValue updated)),
            store := store.map (fun w => if w.id == updated.id then updated else w),
            variable_lookup := true, reset_invoked := true, committed := true }

/-- `EnvironmentVariableCollectionApi.get`: synthesize full-shape entries
from the draft workflow's declared environment variables;
`DraftWorkflowNotExist` when the app has no draft workflow. -/
def EnvironmentVariableCollectionApi.get (srv : WorkflowService) (app_id : String) :
    Except ApiError (List (List (String × FieldValue))) :=
  match srv.get_draft_workflow app_id with
  | none => Except.error ApiError.draftWorkflowNotExist
  | some workflow => Except.ok (workflow.environment_variables.map envVarEntry)

/-- C1: for every variable id, the get, update (PATCH) and delete-by-id
operations raise a not-found error whenever the variable does not exist or
its app_id differs from the caller's app; the two failure causes produce
the same error type with the same message, never a forbidden error. -/
theorem variable_api_cross_app_yields_not_found
    (store : List WorkflowDraftVariable) (app_id variable_id : String)
    (new_name new_value : Option String)
    (h : ∀ v ∈ store, v.id = variable_id → v.app_id ≠ app_id) :
    VariableApi.get store app_id variable_id
      = Except.error (ApiError.notFoundError (variableNotFoundMsg variable_id)) ∧
    (VariableApi.patch store app_id variable_id new_name new_value).response
      = Except.error (ApiError.notFoundError (variableNotFoundMsg variable_id)) ∧
    (VariableApi.delete store app_id variable_id).response
      = Except.error (ApiError.notFoundError (variableNotFoundMsg variable_id)) := by
  have hfind : ∀ v, WorkflowDraftVariableService.get_variable store variable_id = some v →
      (v.app_id != app_id) = true := by
    intro v hv
    have hv2 : store.find? (fun w => w.id == variable_id) = some v := hv
    have hmem := List.mem_of_find?_eq_some hv2
    have hid := List.find?_some hv2
    have hne : v.app_id ≠ app_id := h v hmem (by simpa using hid)
    simpa using hne
  refine ⟨?_, ?_, ?_⟩
  · unfold VariableApi.get
    rcases hv : WorkflowDraftVariableService.get_variable store variable_id with _ | var
    · simp
    · simp [hfind var hv]
  · unfold VariableApi.patch
    rcases hv : WorkflowDraftVariableService.get_variable store variable_id with _ | var
    · simp
    · simp [hfind var hv]
  · unfold VariableApi.delete
    rcases hv : WorkflowDraftVariableService.get_variable store variable_id with _ | var
    · simp
    · simp [hfind var hv]

/-- Concrete row owned by app `appB`, used to witness C1. -/
def c1Var : WorkflowDraftVariable :=
  { id := "v1", app_id := "appB", node_id := "n1", name := "x",
    description := "", value_type := "string", value := "1",
    edited := false, visible := true }

/-- Witness for C1: a caller from `appA` probing the id of a variable owned
by `appB` gets the same not-found error from all three operations. -/
theorem variable_api_cross_app_yields_not_found_witness :
    (∀ v ∈ [c1Var], v.id = "v1" → v.app_id ≠ "appA") ∧
    (VariableApi.get [c1Var] "appA" "v1"
      = Except.error (ApiError.notFoundError (variableNotFoundMsg "v1")) ∧
    (VariableApi.patch [c1Var] "appA" "v1" none none).response
      = Except.error (ApiError.notFoundError (variableNotFoundMsg "v1")) ∧
    (VariableApi.delete [c1Var] "appA" "v1").response
      = Except.error (ApiError.notFoundError (variableNotFoundMsg "v1"))) :=
  ⟨by decide, variable_api_cross_app_yields_not_found [c1Var] "appA" "v1" none none (by decide)⟩

/-- C2: for either reserved sentinel node id, the node-scoped list and
delete operations fail with `InvalidArgumentError` before invoking the
variable service, return no data and delete nothing. -/
theorem node_api_reserved_sentinel_invalid_argument
    (store : List WorkflowDraftVariable) (app_id node_id : String)
    (h : node_id = CONVERSATION_VARIABLE_NODE_ID ∨ node_id = SYSTEM_VARIABLE_NODE_ID) :
    (NodeVariableCollectionApi.get store app_id node_id).response
      = Except.error (ApiError.invalidArgumentError
          ("invalid node_id, please use correspond api for conversation and system variables, node_id="
            ++ node_id)) ∧
    (NodeVariableCollectionApi.get store app_id node_id).service_invoked = false ∧
    (NodeVariableCollectionApi.delete store app_id node_id).response
      = Except.error (ApiError.invalidArgumentError
          ("invalid node_id, please use correspond api for conversation and system variables, node_id="
            ++ node_id)) ∧
    (NodeVariableCollectionApi.delete store app_id node_id).service_invoked = false ∧
    (NodeVariableCollectionApi.delete store app_id node_id).store = store := by
  have hv : validate_node_id node_id
      = some (ApiError.invalidArgumentError
          ("invalid node_id, please use correspond api for conversation and system variables, node_id="
            ++ node_id)) := by
    rcases h with h | h <;> simp [validate_node_id, h]
  refine ⟨?_, ?_, ?_, ?_, ?_⟩ <;>
    simp [NodeVariableCollectionApi.get, NodeVariableCollectionApi.delete, hv]

/-- Witness for C2 at the conversation sentinel with a one-row store. -/
theorem node_api_reserved_sentinel_invalid_argument_witness :
    (CONVERSATION_VARIABLE_NODE_ID = CONVERSATION_VARIABLE_NODE_ID ∨
      CONVERSATION_VARIABLE_NODE_ID = SYSTEM_VARIABLE_NODE_ID) ∧
    ((NodeVariableCollectionApi.get [c1Var] "appB" CONVERSATION_VARIABLE_NODE_ID).response
      = Except.error (ApiError.invalidArgumentError
          ("invalid node_id, please use correspond api for conversation and system variables, node_id="
            ++ CONVERSATION_VARIABLE_NODE_ID)) ∧
    (NodeVariableCollectionApi.get [c1Var] "appB" CONVERSATION_VARIABLE_NODE_ID).service_invoked = false ∧
    (NodeVariableCollectionApi.delete [c1Var] "appB" CONVERSATION_VARIABLE_NODE_ID).response
      = Except.error (ApiError.invalidArgumentError
          ("invalid node_id, please use correspond api for conversation and system variables, node_id="
            ++ CONVERSATION_VARIABLE_NODE_ID)) ∧
    (NodeVariableCollectionApi.delete [c1Var] "appB" CONVERSATION_VARIABLE_NODE_ID).service_invoked = false ∧
    (NodeVariableCollectionApi.delete [c1Var] "appB" CONVERSATION_VARIABLE_NODE_ID).store = [c1Var]) :=
  ⟨Or.inl rfl,
    node_api_reserved_sentinel_invalid_argument [c1Var] "appB" CONVERSATION_VARIABLE_NODE_ID (Or.inl rfl)⟩

/-- C3: every entry of the environment-variable listing has `edited = false`
and `visible = true` regardless of stored state, and its type tag is the
constant "env". -/
theorem env_listing_edited_false_visible_true
    (srv : WorkflowService) (app_id : String)
    (items : List (List (String × FieldValue))) (entry : List (String × FieldValue))
    (hok : EnvironmentVariableCollectionApi.get srv app_id = Except.ok items)
    (hmem : entry ∈ items) :
    lookupField entry "edited" = some (FieldValue.bool false) ∧
    lookupField entry "visible" = some (FieldValue.bool true) ∧
    lookupField entry "type" = some (FieldValue.str "env") := by
  unfold EnvironmentVariableCollectionApi.get at hok
  rcases hw : srv.get_draft_workflow app_id with _ | wf
  · rw [hw] at hok
    exact absurd hok (by simp)
  · rw [hw] at hok
    have hitems : wf.environment_variables.map envVarEntry = items := by
      injection hok
    rw [← hitems] at hmem
    rcases List.mem_map.mp hmem with ⟨v, _, rfl⟩
    exact ⟨rfl, rfl, rfl⟩

/-- Concrete environment variable used to witness C3. -/
def c3EnvVar : EnvironmentVariable :=
  { id := "e1", name := "API_KEY", description := "key",
    selector := ["env", "API_KEY"], value_type := "string", value := "secret" }

/-- Concrete workflow service used to witness C3. -/
def c3Srv : WorkflowService :=
  { draft_workflows := [("appA", { environment_variables := [c3EnvVar], conversation_variables := [] })] }

/-- Witness for C3 on a one-variable workflow definition. -/
theorem env_listing_edited_false_visible_true_witness :
    EnvironmentVariableCollectionApi.get c3Srv "appA" = Except.ok [envVarEntry c3EnvVar] ∧
    envVarEntry c3EnvVar ∈ [envVarEntry c3EnvVar] ∧
    (lookupField (envVarEntry c3EnvVar) "edited" = some (FieldValue.bool false) ∧
     lookupField (envVarEntry c3EnvVar) "visible" = some (FieldValue.bool true) ∧
     lookupField (envVarEntry c3EnvVar) "type" = some (FieldValue.str "env")) :=
  ⟨rfl, by simp,
    env_listing_edited_false_visible_true c3Srv "appA" [envVarEntry c3EnvVar]
      (envVarEntry c3EnvVar) rfl (by simp)⟩

/-- C4: a PATCH with both name and value absent is a no-op: the update
service is not invoked, nothing is committed, the store is unchanged, and
the found variable is returned unmodified. -/
theorem patch_with_no_fields_is_noop
    (store : List WorkflowDraftVariable) (app_id variable_id : String)
    (var : WorkflowDraftVariable)
    (hfind : WorkflowDraftVariableService.get_variable store variable_id = some var)
    (happ : var.app_id = app_id) :
    VariableApi.patch store app_id variable_id none none
      = { response := Except.ok (marshalWithValue var),
          store := store, update_invoked := false, committed := false } := by
  simp [VariableApi.patch, hfind, happ]

/-- Concrete row owned by app `appA`, used to witness C4. -/
def c4Var : WorkflowDraftVariable :=
  { id := "v4", app_id := "appA", node_id := "n1", name := "y",
    description := "", value_type := "string", value := "old",
    edited := true, visible := true }

/-- Witness for C4: patching with no fields leaves the one-row store
untouched and returns the row as is. -/
theorem patch_with_no_fields_is_noop_witness :
    WorkflowDraftVariableService.get_variable [c4Var] "v4" = some c4Var ∧
    c4Var.app_id = "appA" ∧
    VariableApi.patch [c4Var] "appA" "v4" none none
      = { response := Except.ok (marshalWithValue c4Var),
          store := [c4Var], update_invoked := false, committed := false } :=
  ⟨by decide, rfl, patch_with_no_fields_is_noop [c4Var] "appA" "v4" c4Var (by decide) rfl⟩

/-- C5: a reset on an existing variable of the caller's app whose node_id is
not the conversation sentinel fails with `InvalidArgumentError` and does not
invoke the reset service. -/
theorem reset_non_conversation_invalid_argument
    (srv : WorkflowService) (store : List WorkflowDraftVariable)
    (app_id variable_id : String) (wf : Workflow) (var : WorkflowDraftVariable)
    (hwf : srv.get_draft_workflow app_id = some wf)
    (hfind : WorkflowDraftVariableService.get_variable store variable_id = some var)
    (happ : var.app_id = app_id)
    (hnode : var.node_id ≠ CONVERSATION_VARIABLE_NODE_ID) :
    VariableResetApi.put srv store app_id variable_id
      = { response := Except.error (ApiError.invalidArgumentError
            ("variable is not a conversation variable, id=" ++ var.id
              ++ ", node_id=" ++ var.node_id ++ ",  name=" ++ var.name)),
          store := store, variable_lookup := true, reset_invoked := false,
          committed := false } := by
  simp [VariableResetApi.put, hwf, hfind, happ, hnode]

/-- Concrete ordinary node variable of app `appA`, used to witness C5. -/
def c5Var : WorkflowDraftVariable :=
  { id := "v5", app_id := "appA", node_id := "n2", name := "z",
    description := "", value_type := "string", value := "0",
    edited := false, visible := true }

/-- Concrete workflow service used to witness C5. -/
def c5Srv : WorkflowService :=
  { draft_workflows := [("appA", { environment_variables := [], conversation_variables := [] })] }

/-- Witness for C5 on an ordinary node variable. -/
theorem reset_non_conversation_invalid_argument_witness :
    c5Srv.get_draft_workflow "appA"
      = some { environment_variables := [], conversation_variables := [] } ∧
    WorkflowDraftVariableService.get_variable [c5Var] "v5" = some c5Var ∧
    c5Var.app_id = "appA" ∧
    c5Var.node_id ≠ CONVERSATION_VARIABLE_NODE_ID ∧
    VariableResetApi.put c5Srv [c5Var] "appA" "v5"
      = { response := Except.error (ApiError.invalidArgumentError
            ("variable is not a conversation variable, id=" ++ c5Var.id
              ++ ", node_id=" ++ c5Var.node_id ++ ",  name=" ++ c5Var.name)),
          store := [c5Var], variable_lookup := true, reset_invoked := false,
          committed := false } :=
  ⟨rfl, by decide, rfl, by decide,
    reset_non_conversation_invalid_argument c5Srv [c5Var] "appA" "v5"
      { environment_variables := [], conversation_variables := [] } c5Var
      rfl (by decide) rfl (by decide)⟩

/-- C6: a reset that reaches the reset service returns the empty 204
response exactly when the service reports the row absent, and otherwise
returns the full marshalled variable, value included. -/
theorem reset_conversation_204_iff_absent
    (srv : WorkflowService) (store : List WorkflowDraftVariable)
    (app_id variable_id : String) (wf : Workflow) (var : WorkflowDraftVariable)
    (hwf : srv.get_draft_workflow app_id = some wf)
    (hfind : WorkflowDraftVariableService.get_variable store variable_id = some var)
    (happ : var.app_id = app_id)
    (hnode : var.node_id = CONVERSATION_VARIABLE_NODE_ID) :
    ((VariableResetApi.put srv store app_id variable_id).response
        = Except.ok ResetResponse.noContent
      ↔ WorkflowDraftVariableService.reset_conversation_variable wf var = none) ∧
    ∀ updated,
      WorkflowDraftVariableService.reset_conversation_variable wf var = some updated →
      (VariableResetApi.put srv store app_id variable_id).response
        = Except.ok (ResetResponse.fullVariable (marshalWithValue updated)) := by
  rcases hr : WorkflowDraftVariableService.reset_conversation_variable wf var with _ | updated
  · constructor
    · simp [VariableResetApi.put, hwf, hfind, happ, hnode, hr]
    · intro u hu
      cases hu
  · constructor
    · simp [VariableResetApi.put, hwf, hfind, happ, hnode, hr]
    · intro u hu
      injection hu with h2
      subst h2
      simp [VariableResetApi.put, hwf, hfind, happ, hnode, hr]

/-- Concrete conversation variable of app `appA`, used to witness C6. -/
def c6Var : WorkflowDraftVariable :=
  { id := "v6", app_id := "appA", node_id := CONVERSATION_VARIABLE_NODE_ID, name := "counter",
    description := "", value_type := "number", value := "5",
    edited := true, visible := true }

/-- Concrete workflow declaring a default for `counter`, used to witness C6. -/
def c6Wf : Workflow :=
  { environment_variables := [],
    conversation_variables := [{ name := "counter", default_value := "0" }] }

/-- Concrete workflow service used to witness C6. -/
def c6Srv : WorkflowService := { draft_workflows := [("appA", c6Wf)] }

/-- Witness for C6: resetting an overridden conversation variable with a
declared default yields the full variable, not the 204 response. -/
theorem reset_conversation_204_iff_absent_witness :
    c6Srv.get_draft_workflow "appA" = some c6Wf ∧
    WorkflowDraftVariableService.get_variable [c6Var] "v6" = some c6Var ∧
    c6Var.app_id = "appA" ∧
    c6Var.node_id = CONVERSATION_VARIABLE_NODE_ID ∧
    (((VariableResetApi.put c6Srv [c6Var] "appA" "v6").response
        = Except.ok ResetResponse.noContent
      ↔ WorkflowDraftVariableService.reset_conversation_variable c6Wf c6Var = none) ∧
    ∀ updated,
      WorkflowDraftVariableService.reset_conversation_variable c6Wf c6Var = some updated →
      (VariableResetApi.put c6Srv [c6Var] "appA" "v6").response
        = Except.ok (ResetResponse.fullVariable (marshalWithValue updated))) :=
  ⟨rfl, by decide, rfl, rfl,
    reset_conversation_204_iff_absent c6Srv [c6Var] "appA" "v6" c6Wf c6Var
      rfl (by decide) rfl rfl⟩

/-- C7: when no draft workflow exists for the app, the paginated
list-without-values operation fails with the workflow-not-found error
without invoking the listing service. -/
theorem list_variables_without_workflow_fails
    (srv : WorkflowService) (store : List WorkflowDraftVariable)
    (app_id : String) (page limit : Nat)
    (h : srv.is_workflow_exist app_id = false) :
    WorkflowVariableCollectionApi.get srv store app_id page limit
      = { response := Except.error ApiError.draftWorkflowNotExist,
          service_invoked := false } := by
  simp [WorkflowVariableCollectionApi.get, h]

/-- Concrete workflow service with no draft workflows, used to witness C7. -/
def c7Srv : WorkflowService := { draft_workflows := [] }

/-- Witness for C7 on an app without a draft workflow but with a stored
variable. -/
theorem list_variables_without_workflow_fails_witness :
    c7Srv.is_workflow_exist "appB" = false ∧
    WorkflowVariableCollectionApi.get c7Srv [c1Var] "appB" 1 20
      = { response := Except.error ApiError.draftWorkflowNotExist,
          service_invoked := false } :=
  ⟨rfl, list_variables_without_workflow_fails c7Srv [c1Var] "appB" 1 20 rfl⟩

/-- C8: for page and limit within bounds, every entry of a successful
list-without-values response carries exactly the summary field names and no
value field, and the reported total is the count of the app's variables
whatever the requested page. -/
theorem list_without_values_fields_and_total
    (srv : WorkflowService) (store : List WorkflowDraftVariable) (app_id : String)
    (page limit : Nat) (items : List (List (String × FieldValue))) (total : Nat)
    (hp1 : 1 ≤ page) (hp2 : page ≤ 100000) (hl1 : 1 ≤ limit) (hl2 : limit ≤ 100)
    (hok : (WorkflowVariableCollectionApi.get srv store app_id page limit).response
      = Except.ok (items, total)) :
    total = (store.filter (fun v => v.app_id == app_id)).length ∧
    ∀ entry ∈ items,
      entry.map Prod.fst = WORKFLOW_DRAFT_VARIABLE_WITHOUT_VALUE_FIELDS ∧
      "value" ∉ entry.map Prod.fst := by
  cases hex : srv.is_workflow_exist app_id with
  | false =>
    rw [WorkflowVariableCollectionApi.get, hex] at hok
    exact absurd hok (by simp)
  | true =>
    rw [WorkflowVariableCollectionApi.get, hex] at hok
    simp only [Bool.not_true, Bool.false_eq_true, if_false,
      WorkflowDraftVariableService.list_variables_without_values,
      Except.ok.injEq, Prod.mk.injEq] at hok
    obtain ⟨hitems, htotal⟩ := hok
    refine ⟨htotal.symm, ?_⟩
    intro entry hentry
    rw [← hitems] at hentry
    rcases List.mem_map.mp hentry with ⟨v, _, rfl⟩
    refine ⟨rfl, ?_⟩
    rw [show (marshalWithoutValue v).map Prod.fst
      = WORKFLOW_DRAFT_VARIABLE_WITHOUT_VALUE_FIELDS from rfl]
    decide

/-- Concrete workflow service used to witness C8. -/
def c8Srv : WorkflowService :=
  { draft_workflows := [("appB", { environment_variables := [], conversation_variables := [] })] }

/-- Witness for C8: a one-variable app listed at page 1, limit 20. -/
theorem list_without_values_fields_and_total_witness :
    1 ≤ 1 ∧ 1 ≤ 100000 ∧ 1 ≤ 20 ∧ 20 ≤ 100 ∧
    (WorkflowVariableCollectionApi.get c8Srv [c1Var] "appB" 1 20).response
      = Except.ok ([marshalWithoutValue c1Var], 1) ∧
    (1 = ([c1Var].filter (fun v => v.app_id == "appB")).length ∧
    ∀ entry ∈ [marshalWithoutValue c1Var],
      entry.map Prod.fst = WORKFLOW_DRAFT_VARIABLE_WITHOUT_VALUE_FIELDS ∧
      "value" ∉ entry.map Prod.fst) :=
  ⟨le_refl 1, by decide, by decide, by decide, rfl,
    list_without_values_fields_and_total c8Srv [c1Var] "appB" 1 20
      [marshalWithoutValue c1Var] 1 (le_refl 1) (by decide) (by decide) (by decide) rfl⟩

/-- C9: when the app has no draft workflow, the reset operation fails with a
not-found error before the target variable is looked up, whatever the store
holds. -/
theorem reset_without_workflow_not_found
    (srv : WorkflowService) (store : List WorkflowDraftVariable)
    (app_id variable_id : String)
    (h : srv.get_draft_workflow app_id = none) :
    VariableResetApi.put srv store app_id variable_id
      = { response := Except.error
            (ApiError.notFoundError ("Draft workflow not found, app_id=" ++ app_id)),
          store := store, variable_lookup := false, reset_invoked := false,
          committed := false } := by
  simp [VariableResetApi.put, h]

/-- Witness for C9: an existing conversation variable of `appA` still cannot
be reset when the app has no draft workflow. -/
theorem reset_without_workflow_not_found_witness :
    c7Srv.get_draft_workflow "appA" = none ∧
    VariableResetApi.put c7Srv [c6Var] "appA" "v6"
      = { response := Except.error
            (ApiError.notFoundError ("Draft workflow not found, app_id=" ++ "appA")),
          store := [c6Var], variable_lookup := false, reset_invoked := false,
          committed := false } :=
  ⟨rfl, reset_without_workflow_not_found c7Srv [c6Var] "appA" "v6" rfl⟩

/-- C10: every entry of the environment-variable listing carries an
`editable` field set to true, a field name absent from both the summary and
the full projection shapes used by the other endpoints. -/
theorem env_listing_editable_extra_field
    (srv : WorkflowService) (app_id : String)
    (items : List (List (String × FieldValue))) (entry : List (String × FieldValue))
    (hok : EnvironmentVariableCollectionApi.get srv app_id = Except.ok items)
    (hmem : entry ∈ items) :
    lookupField entry "editable" = some (FieldValue.bool true) ∧
    "editable" ∈ entry.map Prod.fst ∧
    (∀ v : WorkflowDraftVariable, "editable" ∉ (marshalWithoutValue v).map Prod.fst) ∧
    (∀ v : WorkflowDraftVariable, "editable" ∉ (marshalWithValue v).map Prod.fst) := by
  unfold EnvironmentVariableCollectionApi.get at hok
  rcases hw : srv.get_draft_workflow app_id with _ | wf
  · rw [hw] at hok
    exact absurd hok (by simp)
  · rw [hw] at hok
    have hitems : wf.environment_variables.map envVarEntry = items := by
      injection hok
    rw [← hitems] at hmem
    rcases List.mem_map.mp hmem with ⟨v, _, rfl⟩
    refine ⟨rfl, ?_, ?_, ?_⟩
    · rw [show (envVarEntry v).map Prod.fst
        = ["id", "type", "name", "description", "selector", "value_type", "value",
            "edited", "visible", "editable"] from rfl]
      decide
    · intro u
      rw [show (marshalWithoutValue u).map Prod.fst
        = WORKFLOW_DRAFT_VARIABLE_WITHOUT_VALUE_FIELDS from rfl]
      decide
    · intro u
      rw [show (marshalWithValue u).map Prod.fst = WORKFLOW_DRAFT_VARIABLE_FIELDS from rfl]
      decide

/-- Concrete environment variable used to witness C10. -/
def c10EnvVar : EnvironmentVariable :=
  { id := "e2", name := "BASE_URL", description := "",
    selector := ["env", "BASE_URL"], value_type := "string", value := "x" }

/-- Concrete workflow service used to witness C10. -/
def c10Srv : WorkflowService :=
  { draft_workflows :=
      [("appC", { environment_variables := [c10EnvVar], conversation_variables := [] })] }

/-- Witness for C10 on a one-variable workflow definition. -/
theorem env_listing_editable_extra_field_witness :
    EnvironmentVariableCollectionApi.get c10Srv "appC" = Except.ok [envVarEntry c10EnvVar] ∧
    envVarEntry c10EnvVar ∈ [envVarEntry c10EnvVar] ∧
    (lookupField (envVarEntry c10EnvVar) "editable" = some (FieldValue.bool true) ∧
    "editable" ∈ (envVarEntry c10EnvVar).map Prod.fst ∧
    (∀ v : WorkflowDraftVariable, "editable" ∉ (marshalWithoutValue v).map Prod.fst) ∧
    (∀ v : WorkflowDraftVariable, "editable" ∉ (marshalWithValue v).map Prod.fst)) :=
  ⟨rfl, by simp,
    env_listing_editable_extra_field c10Srv "appC" [envVarEntry c10EnvVar]
      (envVarEntry c10EnvVar) rfl (by simp)⟩
